import Mathlib

/-!
Verification of the CourseFlow constraint evaluation engine
(`src/Backend/Models/constraint.py`) against its specification.

The embedding models Units, Courses and Sequences as opaque identifiers
(natural numbers; the code only uses identity-based equality and hashing),
Python sets as `Finset`, Python `int` as `Int`, and the floating-point WAM
as a rational number (the code only compares with `>=`).
-/

namespace CourseFlow

/-- Units are opaque identifiable catalog items; equality is by identity. -/
abbrev UnitId := Nat

/-- Courses are opaque identifiable catalog items. -/
abbrev CourseId := Nat

/-- Sequences (major/minor tracks) are opaque identifiable catalog items. -/
abbrev SequenceId := Nat

/-- The evaluation context assembled by `Constraint.is_fulfilled` as the
`enrollment_info` dictionary and broadcast to every condition's `check`.
The set-valued fields are sets (each `check` immediately applies `set(...)`
to its iterable arguments, so only the underlying set of elements matters). -/
structure EnrollmentInfo where
  units_completed : Finset UnitId
  units_enrolled : Finset UnitId
  enrolled_course : CourseId
  enrolled_sequence : SequenceId
  current_wam : ℚ
deriving DecidableEq

/-- The closed set of condition variants from `constraint.py`.  Each
constructor stores exactly the configured state its Python `__init__`
assigns to `self`. -/
inductive Condition where
  | minimumNumberOfUnits (unit_set : Finset UnitId) (minimum_count : Int)
  | prerequisitesFulfilled (prerequisites : Finset UnitId)
  | corequisitesFulfilled (corequisites : Finset UnitId)
  | mutualExclusiveUnits (incompatible_units : Finset UnitId)
  | enrolledInSequence (sequence : SequenceId)
  | enrolledInCourse (course : CourseId)
  | minimumWam (minimum_wam : ℚ)
deriving DecidableEq

/-- `Condition.check`, by variant, exactly as in `constraint.py`:
* `MinimumNumberOfUnitsCondition.check`: `len(self.set & units_completed) >= self.min`;
* `PrerequisitesFulfilledCondition.check`: `self.prerequisites <= units_completed`;
* `CorequisitesFulfilledCondition.check`: `self.corequisites <= (units_completed | units_enrolled)`;
* `MutualExclusiveUnitsCondition.check`: `bool(self.incompatible_units & (units_completed | units_enrolled))`,
  i.e. true iff the intersection is non-empty;
* `EnrolledInSequenceCondition.check`: `self.sequence == enrolled_sequence`;
* `EnrolledInCourseCondition.check`: `self.course == enrolled_course`;
* `MinimumWamCondition.check`: `current_wam >= self.minimum_wam`. -/
def Condition.check : Condition → EnrollmentInfo → Bool
  | .minimumNumberOfUnits s m, ctx =>
      decide (((s ∩ ctx.units_completed).card : Int) ≥ m)
  | .prerequisitesFulfilled p, ctx =>
      decide (p ⊆ ctx.units_completed)
  | .corequisitesFulfilled c, ctx =>
      decide (c ⊆ ctx.units_completed ∪ ctx.units_enrolled)
  | .mutualExclusiveUnits x, ctx =>
      decide ((x ∩ (ctx.units_completed ∪ ctx.units_enrolled)).Nonempty)
  | .enrolledInSequence s, ctx => decide (s = ctx.enrolled_sequence)
  | .enrolledInCourse c, ctx => decide (c = ctx.enrolled_course)
  | .minimumWam m, ctx => decide (ctx.current_wam ≥ m)

/-- `MinimumNumberOfUnitsCondition.__init__(unit_set, minimum_count)`:
stores `set(unit_set)` (de-duplicating the iterable) and `minimum_count`
unchanged — there is no validation of `minimum_count`. -/
def mkMinimumNumberOfUnits (unit_set : List UnitId) (minimum_count : Int) : Condition :=
  .minimumNumberOfUnits unit_set.toFinset minimum_count

/-- `PrerequisitesFulfilledCondition.__init__(prerequisite_units)`:
stores `set(prerequisite_units)`. -/
def mkPrerequisitesFulfilled (prerequisite_units : List UnitId) : Condition :=
  .prerequisitesFulfilled prerequisite_units.toFinset

/-- `CorequisitesFulfilledCondition.__init__(corequisite_units)`:
stores `set(corequisite_units)`. -/
def mkCorequisitesFulfilled (corequisite_units : List UnitId) : Condition :=
  .corequisitesFulfilled corequisite_units.toFinset

/-- `MutualExclusiveUnitsCondition.__init__(incompatible_units)`:
stores `set(incompatible_units)`. -/
def mkMutualExclusiveUnits (incompatible_units : List UnitId) : Condition :=
  .mutualExclusiveUnits incompatible_units.toFinset

/-- `Constraint`: an ordered list of conditions (`self.conditions`). -/
structure Constraint where
  conditions : List Condition

/-- `Constraint.is_fulfilled`: builds the `enrollment_info` context from its
five arguments and returns `all([condition.check(**enrollment_info) for
condition in self.conditions])`. -/
def Constraint.is_fulfilled (c : Constraint)
    (units_completed : Finset UnitId) (units_enrolled : Finset UnitId)
    (enrolled_course : CourseId) (enrolled_sequence : SequenceId)
    (current_wam : ℚ) : Bool :=
  (c.conditions.map (fun condition =>
    condition.check ⟨units_completed, units_enrolled, enrolled_course,
      enrolled_sequence, current_wam⟩)).all id

/-- The context fields a condition variant consumes, as declared by the
named parameters of its Python `check` signature (everything else falls
into `**kwargs` and is ignored).  Two contexts are related when they agree
on the consumed fields of the given variant. -/
def Condition.consumedAgree : Condition → EnrollmentInfo → EnrollmentInfo → Prop
  | .minimumNumberOfUnits _ _, a, b => a.units_completed = b.units_completed
  | .prerequisitesFulfilled _, a, b => a.units_completed = b.units_completed
  | .corequisitesFulfilled _, a, b =>
      a.units_completed = b.units_completed ∧ a.units_enrolled = b.units_enrolled
  | .mutualExclusiveUnits _, a, b =>
      a.units_completed = b.units_completed ∧ a.units_enrolled = b.units_enrolled
  | .enrolledInSequence _, a, b => a.enrolled_sequence = b.enrolled_sequence
  | .enrolledInCourse _, a, b => a.enrolled_course = b.enrolled_course
  | .minimumWam _, a, b => a.current_wam = b.current_wam

/-- `Constraint.is_fulfilled` is true exactly when every contained
condition's `check` is true on the assembled context. -/
theorem is_fulfilled_iff (c : Constraint)
    (uc ue : Finset UnitId) (ec : CourseId) (es : SequenceId) (w : ℚ) :
    c.is_fulfilled uc ue ec es w = true ↔
      ∀ cond ∈ c.conditions, cond.check ⟨uc, ue, ec, es, w⟩ = true := by
  simp [Constraint.is_fulfilled]

/-- C1 counterexample: with X = {0}, units_completed = {0} and
units_enrolled = ∅, `MutualExclusiveUnitsCondition.check` returns true even
though the intersection of X with the union is NOT empty, so check does not
return true iff the intersection is empty. -/
theorem C1_counterexample :
    (Condition.mutualExclusiveUnits {0}).check ⟨{0}, ∅, 0, 0, 0⟩ = true ∧
    ¬ (({0} : Finset UnitId) ∩ (({0} : Finset UnitId) ∪ ∅) = ∅) := by
  constructor <;> decide

/-- C1 (amended): for every reference set X and every context,
`MutualExclusiveUnitsCondition.check` returns true iff the intersection of
X with the union of units_completed and units_enrolled is NON-empty (the
condition signals a violation; its polarity is the inverse of the spec
table's `X ∩ (units_completed ∪ units_enrolled) = ∅`). -/
theorem C1_mutual_exclusion_polarity (X : Finset UnitId) (ctx : EnrollmentInfo) :
    (Condition.mutualExclusiveUnits X).check ctx = true ↔
      X ∩ (ctx.units_completed ∪ ctx.units_enrolled) ≠ ∅ := by
  simp [Condition.check, Finset.nonempty_iff_ne_empty]

/-- C2: `MutualExclusiveUnitsCondition.check` returns true exactly when the
intersection of X with units_completed ∪ units_enrolled is non-empty; in
particular it is true at X = {A}, completed = {A}, enrolled = ∅ and false
when both sets are empty. -/
theorem C2_mutual_exclusion_violation :
    (∀ (X : Finset UnitId) (ctx : EnrollmentInfo),
        (Condition.mutualExclusiveUnits X).check ctx = true ↔
          (X ∩ (ctx.units_completed ∪ ctx.units_enrolled)).Nonempty) ∧
    (Condition.mutualExclusiveUnits {0}).check ⟨{0}, ∅, 0, 0, 0⟩ = true ∧
    (Condition.mutualExclusiveUnits {0}).check ⟨∅, ∅, 0, 0, 0⟩ = false := by
  refine ⟨fun X ctx => by simp [Condition.check], ?_, ?_⟩ <;> decide

/-- C3: `MinimumNumberOfUnitsCondition.__init__` performs no validation of
`minimum_count`: constructing with the negative threshold -1 succeeds
(yields an ordinary condition value) and the resulting condition's check
even returns true on an empty completed set, instead of construction
failing as the spec requires. -/
theorem C3_negative_threshold_accepted :
    mkMinimumNumberOfUnits [] (-1) = Condition.minimumNumberOfUnits ∅ (-1) ∧
    (mkMinimumNumberOfUnits [] (-1)).check ⟨∅, ∅, 0, 0, 0⟩ = true := by
  constructor <;> decide

/-- C4: `Constraint.is_fulfilled` equals the conjunction of the check
results of all contained conditions on the same context, and the result is
invariant under any permutation of the condition list. -/
theorem C4_is_fulfilled_conjunction (c : Constraint) (l : List Condition)
    (uc ue : Finset UnitId) (ec : CourseId) (es : SequenceId) (w : ℚ)
    (h : c.conditions.Perm l) :
    (c.is_fulfilled uc ue ec es w = true ↔
      ∀ cond ∈ c.conditions, cond.check ⟨uc, ue, ec, es, w⟩ = true) ∧
    Constraint.is_fulfilled ⟨l⟩ uc ue ec es w = c.is_fulfilled uc ue ec es w := by
  refine ⟨is_fulfilled_iff c uc ue ec es w, ?_⟩
  rw [Bool.eq_iff_iff, is_fulfilled_iff, is_fulfilled_iff]
  exact ⟨fun hall cond hc => hall cond (h.mem_iff.mp hc),
    fun hall cond hc => hall cond (h.mem_iff.mpr hc)⟩

/-- C4 witness: the theorem instantiated at a two-condition constraint, a
concrete context, and the swapped permutation of the condition list. -/
theorem C4_is_fulfilled_conjunction_witness :
    ([Condition.minimumWam 1, Condition.prerequisitesFulfilled {0}].Perm
      [Condition.prerequisitesFulfilled {0}, Condition.minimumWam 1]) ∧
    ((Constraint.mk [Condition.minimumWam 1,
        Condition.prerequisitesFulfilled {0}]).is_fulfilled {0} ∅ 0 0 2 = true ↔
      ∀ cond ∈ [Condition.minimumWam 1, Condition.prerequisitesFulfilled {0}],
        cond.check ⟨{0}, ∅, 0, 0, 2⟩ = true) ∧
    Constraint.is_fulfilled
        ⟨[Condition.prerequisitesFulfilled {0}, Condition.minimumWam 1]⟩ {0} ∅ 0 0 2 =
      (Constraint.mk [Condition.minimumWam 1,
        Condition.prerequisitesFulfilled {0}]).is_fulfilled {0} ∅ 0 0 2 :=
  ⟨List.Perm.swap _ _ _,
    C4_is_fulfilled_conjunction _ _ _ _ _ _ _ (List.Perm.swap _ _ _)⟩

/-- C5: a Constraint containing zero conditions returns true from
`is_fulfilled` on every context. -/
theorem C5_empty_constraint (uc ue : Finset UnitId)
    (ec : CourseId) (es : SequenceId) (w : ℚ) :
    (Constraint.mk []).is_fulfilled uc ue ec es w = true := rfl

/-- C6: every condition variant's check depends only on the context fields
named in its Python check signature: two contexts that agree on those
fields (per `Condition.consumedAgree`) yield the same check result, however
the remaining fields differ. -/
theorem C6_field_independence (cond : Condition) (a b : EnrollmentInfo)
    (h : cond.consumedAgree a b) : cond.check a = cond.check b := by
  cases cond <;> simp_all [Condition.check, Condition.consumedAgree]

/-- C6 witness: `MinimumWamCondition` evaluated on two contexts that agree
on current_wam but differ on every other field. -/
theorem C6_field_independence_witness :
    (Condition.minimumWam 1).consumedAgree ⟨{0}, ∅, 0, 0, 5⟩ ⟨∅, {3}, 7, 9, 5⟩ ∧
    (Condition.minimumWam 1).check ⟨{0}, ∅, 0, 0, 5⟩ =
      (Condition.minimumWam 1).check ⟨∅, {3}, 7, 9, 5⟩ :=
  ⟨rfl, C6_field_independence _ _ _ rfl⟩

/-- C7: `MinimumNumberOfUnitsCondition(R, k).check` is true exactly when
the number of units in R ∩ units_completed is at least k; with
R = {A,B,C} = {0,1,2} and k = 2 it is true on completed = {0,1} and false
on completed = {0}. -/
theorem C7_minimum_unit_count :
    (∀ (R : Finset UnitId) (k : Int) (ctx : EnrollmentInfo),
        (Condition.minimumNumberOfUnits R k).check ctx = true ↔
          ((R ∩ ctx.units_completed).card : Int) ≥ k) ∧
    (Condition.minimumNumberOfUnits {0, 1, 2} 2).check ⟨{0, 1}, ∅, 0, 0, 0⟩ = true ∧
    (Condition.minimumNumberOfUnits {0, 1, 2} 2).check ⟨{0}, ∅, 0, 0, 0⟩ = false := by
  refine ⟨fun R k ctx => by simp [Condition.check], ?_, ?_⟩ <;> decide

/-- C8: `CorequisitesFulfilledCondition.check` is true exactly when the
corequisite set is a subset of units_completed ∪ units_enrolled; completed
and enrolled units count equally (swapping the two sets in the context
leaves the result unchanged). -/
theorem C8_corequisites (C : Finset UnitId) (ctx : EnrollmentInfo) :
    ((Condition.corequisitesFulfilled C).check ctx = true ↔
      C ⊆ ctx.units_completed ∪ ctx.units_enrolled) ∧
    (Condition.corequisitesFulfilled C).check
        ⟨ctx.units_enrolled, ctx.units_completed, ctx.enrolled_course,
          ctx.enrolled_sequence, ctx.current_wam⟩ =
      (Condition.corequisitesFulfilled C).check ctx := by
  constructor
  · simp [Condition.check]
  · simp [Condition.check, Finset.union_comm]

/-- C9: the four set-valued constructors apply `set(...)` to their iterable
argument, so a condition built from a list with duplicates equals (and thus
evaluates identically to) one built from the de-duplicated list. -/
theorem C9_dedup (l : List UnitId) (k : Int) (ctx : EnrollmentInfo) :
    (mkMinimumNumberOfUnits l k = mkMinimumNumberOfUnits l.dedup k ∧
      mkPrerequisitesFulfilled l = mkPrerequisitesFulfilled l.dedup ∧
      mkCorequisitesFulfilled l = mkCorequisitesFulfilled l.dedup ∧
      mkMutualExclusiveUnits l = mkMutualExclusiveUnits l.dedup) ∧
    ((mkMinimumNumberOfUnits l k).check ctx = (mkMinimumNumberOfUnits l.dedup k).check ctx ∧
      (mkPrerequisitesFulfilled l).check ctx = (mkPrerequisitesFulfilled l.dedup).check ctx ∧
      (mkCorequisitesFulfilled l).check ctx = (mkCorequisitesFulfilled l.dedup).check ctx ∧
      (mkMutualExclusiveUnits l).check ctx = (mkMutualExclusiveUnits l.dedup).check ctx) := by
  have hd : l.dedup.toFinset = l.toFinset := by
    ext a
    simp
  simp [mkMinimumNumberOfUnits, mkPrerequisitesFulfilled, mkCorequisitesFulfilled,
    mkMutualExclusiveUnits, hd]

/-- C10: a `MinimumNumberOfUnitsCondition` with minimum_count ≤ 0
(including negative values) is satisfied on every context, because the
intersection's size is a non-negative number. -/
theorem C10_nonpositive_threshold (R : Finset UnitId) (k : Int)
    (ctx : EnrollmentInfo) (h : k ≤ 0) :
    (Condition.minimumNumberOfUnits R k).check ctx = true := by
  simp only [Condition.check, ge_iff_le, decide_eq_true_eq]
  exact h.trans (Int.natCast_nonneg _)

/-- C10 witness: the theorem instantiated at threshold -1 with an empty
completed set. -/
theorem C10_nonpositive_threshold_witness :
    (-1 : Int) ≤ 0 ∧
    (Condition.minimumNumberOfUnits {0} (-1)).check ⟨∅, ∅, 0, 0, 0⟩ = true :=
  ⟨by decide, C10_nonpositive_threshold _ _ _ (by decide)⟩

end CourseFlow
